import Mathlib

/-!
Verification of the repository `finnlander/util-microservice-cmd`
(`src/fabfile.py`): a shallow embedding, in Lean 4, of the git-repository
discovery, classification, and reconciliation logic, together with proofs
about it.

Modelling conventions:
* A GitPython `Repo` object is modelled by the structure `GitRepo` holding
  the queries the fabfile performs on it: detached-HEAD state, active branch
  name, the list of `str(ref)` values of the known references, the list of
  configured remote names, the dirty flag (with untracked files counted, as
  the fabfile always passes `untracked_files=True`), the text returned by
  `git status -sb`, and the commit reachability relation used by
  `iter_commits`.
* Python exceptions are modelled with `Except`: a raised exception is an
  `Except.error` value that propagates exactly as the exception would.
* Printing is modelled by returning the data that each `print` call would
  render (either as strings built exactly as the source builds them, or as
  constructors of a dedicated report-line type carrying the printed data).
-/

namespace Fabfile

/-- Decidable substring test on `List Char`: `needle` occurs contiguously in
`hay`.  Used to model Python's `in` operator on strings. -/
def isInfixList (needle : List Char) : List Char → Bool
  | [] => needle.isEmpty
  | c :: t => needle.isPrefixOf (c :: t) || isInfixList needle t

/-- Python `needle in hay` for strings. -/
def substrOf (needle hay : String) : Bool :=
  isInfixList needle.data hay.data

/-- Python `s.startswith(pre)` for strings. -/
def pyStartswith (s pre : String) : Bool :=
  pre.data.isPrefixOf s.data

/-- Python `os.path.join(a, b)` for the non-degenerate case used by the
fabfile (joining a directory path with a plain sub-directory name). -/
def path_join (a b : String) : String := a ++ "/" ++ b

/-- `termcolor` color table (foreground codes). -/
def termcolorCode (color : String) : Nat :=
  if color = "grey" then 30
  else if color = "red" then 31
  else if color = "green" then 32
  else if color = "yellow" then 33
  else if color = "blue" then 34
  else if color = "magenta" then 35
  else if color = "cyan" then 36
  else if color = "white" then 37
  else 0

/-- ANSI escape `\033[<n>m`. -/
def ansiEsc (n : Nat) : String := "\x1b[" ++ toString n ++ "m"

/-- `termcolor.colored(text, color)`. -/
def colored (text color : String) : String :=
  ansiEsc (termcolorCode color) ++ text ++ "\x1b[0m"

/-- `termcolor.colored(text, color, attrs=['bold'])`: the attribute escape is
applied outside the color escape. -/
def coloredBold (text color : String) : String :=
  ansiEsc 1 ++ (ansiEsc (termcolorCode color) ++ text ++ "\x1b[0m")

/-- `_as_bolded_white_str` (src/fabfile.py:787). -/
def _as_bolded_white_str (s : String) : String := coloredBold s "white"

/-- The line printed by `_print_error` (src/fabfile.py:783). -/
def _print_error_line (s : String) : String :=
  "[" ++ colored "error" "red" ++ "] " ++ s

/-- The line printed by `_print_warn` (src/fabfile.py:779). -/
def _print_warn_line (s : String) : String :=
  "[" ++ colored "warn" "yellow" ++ "] " ++ s

/-- `DEFAULT_GIT_REMOTE_NAME` (src/fabfile.py:63). -/
def DEFAULT_GIT_REMOTE_NAME : String := "origin"

/-- A Python exception value: `str(error)` and `traceback.format_exc()`. -/
structure PyException where
  message : String
  traceback : String
  deriving DecidableEq, Repr

/-- Model of one GitPython `Repo` object, restricted to the queries the
fabfile performs on it. -/
structure GitRepo where
  /-- `repo.head.is_detached`. -/
  head_is_detached : Bool
  /-- `str(repo.active_branch)` (only consulted when HEAD is not detached). -/
  activeBranch : String
  /-- `[str(ref) for ref in repo.references]`. -/
  references : List String
  /-- The names of the configured remotes (`repo.remotes`). -/
  remotes : List String
  /-- `repo.is_dirty(untracked_files=True)`. -/
  is_dirty : Bool
  /-- The output of `repo.git.status('-sb')`. -/
  statusSB : String
  /-- `repo.iter_commits` reachability: the commits reachable from a rev. -/
  reachable : String → List String

/-- Models GitPython `Repo.remote(name='origin')`: it looks the remote up BY
NAME (default `'origin'`) and raises `ValueError` when no remote with that
name exists — it does not return the single configured remote, and it never
returns a falsy value.  The fabfile always calls it with no argument. -/
def repoRemote (repo : GitRepo) : Except PyException String :=
  if repo.remotes.contains "origin" then .ok "origin"
  else .error ⟨"Remote named origin did not exist", "ValueError"⟩

/-- A GitPython `Remote` object defines no `__bool__`/`__len__`, so it is
always truthy in `remote.name if remote else ...` (src/fabfile.py:616). -/
def remoteTruthy (_remoteName : String) : Bool := true

/-- `_is_repo_head_detached` (src/fabfile.py:501-502). -/
def _is_repo_head_detached (repo : GitRepo) : Bool :=
  repo.head_is_detached

/-- `_has_branch` (src/fabfile.py:480-485). -/
def _has_branch (repo : GitRepo) (branch : String) : Bool :=
  repo.references.contains branch

/-- `_has_remote_branch` (src/fabfile.py:488-498).  Note: the reference name
tested is always built from `repo.active_branch`; the function takes no
branch parameter. -/
def _has_remote_branch (remote_name : String) (repo : GitRepo) : Bool :=
  if _is_repo_head_detached repo then
    false
  else
    repo.references.contains (remote_name ++ "/" ++ repo.activeBranch)

/-- `_get_remote_name` (src/fabfile.py:614-616).  `repo.remote()` raises when
no remote named `origin` exists, and the returned `Remote` is always truthy,
so the `DEFAULT_GIT_REMOTE_NAME` fallback is unreachable. -/
def _get_remote_name (repo : GitRepo) : Except PyException String := do
  let remote ← repoRemote repo
  pure (if remoteTruthy remote then remote else DEFAULT_GIT_REMOTE_NAME)

/-- `_is_tracking_remote_branch` (src/fabfile.py:505-526). -/
def _is_tracking_remote_branch (repo : GitRepo) : Except PyException Bool :=
  if _is_repo_head_detached repo then
    .ok false
  else if repo.remotes.isEmpty then
    -- `if not repo.remotes` — no remotes configured
    .ok false
  else do
    let remote ← repoRemote repo
    if !remoteTruthy remote then
      .ok false
    else
      let branch_name := repo.activeBranch
      let remote_branch_name := remote ++ "/" ++ branch_name
      .ok (substrOf (branch_name ++ "..." ++ remote_branch_name) repo.statusSB)

/-- `SkipReason` of the specification's reconciliation policy (§3). -/
inductive SkipReason where
  | NONE
  | DIRTY
  | DETACHED_HEAD
  | NOT_TRACKING
  | NO_REMOTE_BRANCH
  | NO_MATCHING_BRANCH
  deriving DecidableEq, Repr

/-- Outcome of one `_pull_repo` call: which skip rule fired (or `NONE`) and
whether `repo.git.pull()` was executed. -/
structure PullRun where
  reason : SkipReason
  pullRan : Bool
  deriving DecidableEq, Repr

/-- `_pull_repo` (src/fabfile.py:437-471), reduced to its decision structure:
the guards in source order (dirty, detached HEAD, not tracking, no remote
branch), each returning early with a warning, and the `repo.git.pull()` call
on the fall-through path. -/
def _pull_repo (repo : GitRepo) : Except PyException PullRun :=
  if repo.is_dirty then
    .ok ⟨.DIRTY, false⟩
  else if _is_repo_head_detached repo then
    .ok ⟨.DETACHED_HEAD, false⟩
  else do
    let tracking ← _is_tracking_remote_branch repo
    if !tracking then
      .ok ⟨.NOT_TRACKING, false⟩
    else do
      let remote_name ← _get_remote_name repo
      if !(_has_remote_branch remote_name repo) then
        .ok ⟨.NO_REMOTE_BRANCH, false⟩
      else
        .ok ⟨.NONE, true⟩

/-- Outcome of one `_fetch_repo` call.  In the `fetched` case,
`gitFetchRemote` and `gitFetchBranch` are the two arguments passed to
`repo.git.fetch(...)`, and `printedRemoteName` is the `remote_name` shown in
the informational message. -/
inductive FetchOutcome where
  | skippedDetached
  | skippedNoRemoteBranch (activeBranch : String)
  | fetched (gitFetchRemote gitFetchBranch printedRemoteName : String)
  deriving DecidableEq, Repr

/-- `_fetch_repo` (src/fabfile.py:408-434).  On the fall-through path the
source executes `repo.git.fetch('origin', target_branch)` — the first
argument is the string literal `'origin'`, not `remote_name`. -/
def _fetch_repo (repo : GitRepo) (branch : Option String) :
    Except PyException FetchOutcome :=
  if _is_repo_head_detached repo then
    .ok .skippedDetached
  else do
    let remote_name ← _get_remote_name repo
    if !(_has_remote_branch remote_name repo) then
      .ok (.skippedNoRemoteBranch repo.activeBranch)
    else
      let target_branch := branch.getD repo.activeBranch
      .ok (.fetched "origin" target_branch remote_name)

/-- `repo.iter_commits('{fromRev}..{toRev}')`: the commits reachable from
`toRev` but not from `fromRev`. -/
def iter_commits_range (repo : GitRepo) (fromRev toRev : String) : List String :=
  (repo.reachable toRev).filter (fun c => !((repo.reachable fromRev).contains c))

/-- `forward_commit_count` of `_check_is_repo_up_to_date`
(src/fabfile.py:556,560): the length of
`repo.iter_commits('{remote_branch}..{target_branch}')`. -/
def forward_commit_count (repo : GitRepo) (target_branch remote_branch : String) : Nat :=
  (iter_commits_range repo remote_branch target_branch).length

/-- `behind_commit_count` of `_check_is_repo_up_to_date`
(src/fabfile.py:557,559): the length of
`repo.iter_commits('{target_branch}..{remote_branch}')`. -/
def behind_commit_count (repo : GitRepo) (target_branch remote_branch : String) : Nat :=
  (iter_commits_range repo target_branch remote_branch).length

/-- One line printed by the report tail of `_check_is_repo_up_to_date`
(src/fabfile.py:565-580), carrying the data the `print` call renders. -/
inductive CheckReportLine where
  /-- `--> Origin ({remote_branch}) is up-to-date with local branch`. -/
  | originUpToDate (remote_branch : String)
  /-- `--> Origin ({remote_branch}) is ahead by {behind_commit_count}
  commit(s)` — printed when `behind_commit_count > 0`. -/
  | originAhead (remote_branch : String) (count : Nat)
  /-- `--> Local branch ({target_branch}) is ahead by
  {forward_commit_count} commit(s)` — printed when
  `forward_commit_count > 0`. -/
  | localAhead (target_branch : String) (count : Nat)
  deriving DecidableEq, Repr

/-- The report tail of `_check_is_repo_up_to_date` (src/fabfile.py:556-580):
computes the two commit counts and renders the up-to-date line or the
ahead/behind phrases. -/
def checkStateReport (repo : GitRepo) (target_branch remote_branch : String) :
    List CheckReportLine :=
  let behind := behind_commit_count repo target_branch remote_branch
  let forward := forward_commit_count repo target_branch remote_branch
  if behind = 0 ∧ forward = 0 then
    [.originUpToDate remote_branch]
  else
    (if behind > 0 then [.originAhead remote_branch behind] else [])
      ++ (if forward > 0 then [.localAhead target_branch forward] else [])

/-- One step performed by `_check_is_repo_up_to_date`, in execution order. -/
inductive CheckStep where
  /-- The `_is_repo_head_detached` guard (line 531). -/
  | evalDetached
  /-- `remote_name = _get_remote_name(repo)` (line 537). -/
  | resolveRemoteName
  /-- The `_has_branch(repo, target_branch)` guard (line 539). -/
  | evalHasBranch
  /-- The `_has_remote_branch(remote_name, repo)` guard (line 547): the
  `remoteBranchExists` classification. -/
  | evalRemoteBranchExists
  /-- `_update_remotes_in_repo(repo_dir, repo)` (line 554), i.e.
  `repo.remotes.origin.update()`: the explicit remote-refresh. -/
  | updateRemotes
  /-- The two `repo.iter_commits(...)` range walks (lines 556-557). -/
  | iterCommits
  /-- The report rendering (lines 565-580). -/
  | renderReport
  /-- An early return with a skip warning. -/
  | skipWarn (reason : SkipReason)
  /-- An uncaught exception. -/
  | raised (message : String)
  deriving DecidableEq, Repr

/-- `_check_is_repo_up_to_date` (src/fabfile.py:529-580) as the ordered trace
of the steps it performs.  Mirrors the source's statement order: detached
guard, remote-name resolution, target-branch resolution, `_has_branch`
guard, `_has_remote_branch` guard, remote update, commit-range walks,
report. -/
def checkTrace (repo : GitRepo) (branch : Option String) : List CheckStep :=
  if _is_repo_head_detached repo then
    [.evalDetached, .skipWarn .DETACHED_HEAD]
  else
    match _get_remote_name repo with
    | .error e => [.evalDetached, .resolveRemoteName, .raised e.message]
    | .ok remote_name =>
      let target_branch := branch.getD repo.activeBranch
      if !(_has_branch repo target_branch) then
        [.evalDetached, .resolveRemoteName, .evalHasBranch,
          .skipWarn .NO_MATCHING_BRANCH]
      else if !(_has_remote_branch remote_name repo) then
        [.evalDetached, .resolveRemoteName, .evalHasBranch,
          .evalRemoteBranchExists, .skipWarn .NO_REMOTE_BRANCH]
      else
        [.evalDetached, .resolveRemoteName, .evalHasBranch,
          .evalRemoteBranchExists, .updateRemotes, .iterCommits, .renderReport]

/-- The file-system facts the discovery code consults: the root path, the
names of its immediate sub-directories (`next(os.walk(dir_path))[1]`, in
listing order), and the `_has_git_repo` predicate (src/fabfile.py:652-654:
`os.path.isdir(os.path.join(path, '.git'))`) on arbitrary paths. -/
structure FileSystem where
  rootPath : String
  subdirNames : List String
  hasGitMarker : String → Bool

/-- `_get_git_repo_paths` (src/fabfile.py:636-649): the loop over the
immediate sub-directories, skipping names that start with `'.'` and
appending `os.path.join(dir_path, sub_dir)` when `_has_git_repo` holds. -/
def _get_git_repo_paths (fs : FileSystem) : List String :=
  fs.subdirNames.foldl
    (fun repo_paths sub_dir =>
      if pyStartswith sub_dir "." then
        repo_paths
      else if fs.hasGitMarker (path_join fs.rootPath sub_dir) then
        repo_paths ++ [path_join fs.rootPath sub_dir]
      else
        repo_paths)
    []

/-- What a batch task (`fetch_all`, `pull_all`, `check_repo_states`) does
with the discovery result. -/
inductive DiscoverOutcome where
  /-- `_run_action_for_each_repo(git_repo_dirs, ...)` on a non-empty list. -/
  | runOnRepos (paths : List String)
  /-- Fallback: the root itself contains the marker, so the action runs on
  the root (`_run_action_if_is_repo`, marker branch). -/
  | runOnRoot (path : String)
  /-- `_print_error('No GIT repos found from "..."')`
  (src/fabfile.py:595). -/
  | noReposFound (path : String)
  deriving DecidableEq, Repr

/-- The discovery dispatch shared by `fetch_all`, `pull_all` and
`check_repo_states` (e.g. src/fabfile.py:94-102) combined with
`_run_action_if_is_repo` (src/fabfile.py:589-595): when
`_get_git_repo_paths` is empty, the action runs on the current directory iff
it has the git marker, else "no repos found" is reported. -/
def discoverDispatch (fs : FileSystem) : DiscoverOutcome :=
  let git_repo_dirs := _get_git_repo_paths fs
  if git_repo_dirs.isEmpty then
    if fs.hasGitMarker fs.rootPath then
      .runOnRoot fs.rootPath
    else
      .noReposFound fs.rootPath
  else
    .runOnRepos git_repo_dirs

/-- `_try_run` (src/fabfile.py:765-772): runs the thunk, and on an exception
prints `'Message: ' + str(error)` as an error line, plus the full traceback
when `DEBUG_MODE` is set.  The module-global `DEBUG_MODE` is passed
explicitly.  Returns the error lines printed. -/
def _try_run (debug_mode : Bool) (result : Except PyException Unit) : List String :=
  match result with
  | .ok _ => []
  | .error e =>
    _print_error_line ("Message: " ++ e.message)
      :: (if debug_mode then [_print_error_line e.traceback] else [])

/-- `_run_action_for_each_repo` (src/fabfile.py:583-586).  `Repo(repo_dir)`
construction (`constructRepo`) happens OUTSIDE `_try_run`, so a construction
failure propagates and aborts the whole batch (`Except.error`); the action
itself runs inside `_try_run`.  Returns the error lines printed and the list
of directories for which the action was invoked. -/
def _run_action_for_each_repo (debug_mode : Bool)
    (constructRepo : String → Except PyException GitRepo)
    (func : String → GitRepo → Except PyException Unit) :
    List String → Except PyException (List String × List String)
  | [] => .ok ([], [])
  | repo_dir :: rest => do
    let repo ← constructRepo repo_dir
    let lines := _try_run debug_mode (func repo_dir repo)
    let (restLines, restInvoked) ←
      _run_action_for_each_repo debug_mode constructRepo func rest
    .ok (lines ++ restLines, repo_dir :: restInvoked)

/-- The error lines contributed by one directory of the batch, when its
repository handle constructs successfully. -/
def repoActionLog (debug_mode : Bool)
    (constructRepo : String → Except PyException GitRepo)
    (func : String → GitRepo → Except PyException Unit)
    (repo_dir : String) : List String :=
  match constructRepo repo_dir with
  | .error _ => []
  | .ok repo => _try_run debug_mode (func repo_dir repo)

/- Concrete repositories used as witnesses and counterexamples. -/

/-- A clean repository on branch `master`, tracking `origin/master`. -/
def repoClean : GitRepo where
  head_is_detached := false
  activeBranch := "master"
  references := ["master", "origin/master"]
  remotes := ["origin"]
  is_dirty := false
  statusSB := "## master...origin/master"
  reachable := fun _ => []

/-- A dirty repository (otherwise like `repoClean`). -/
def repoDirty : GitRepo where
  head_is_detached := false
  activeBranch := "master"
  references := ["master", "origin/master"]
  remotes := ["origin"]
  is_dirty := true
  statusSB := "## master...origin/master"
  reachable := fun _ => []

/-- A detached-HEAD repository with two configured remotes. -/
def repoDetached : GitRepo where
  head_is_detached := true
  activeBranch := "master"
  references := ["master", "origin/master", "upstream/master"]
  remotes := ["origin", "upstream"]
  is_dirty := false
  statusSB := "## HEAD (no branch)"
  reachable := fun _ => []

/-- A repository whose only configured remote is named `upstream`. -/
def repoUpstreamOnly : GitRepo where
  head_is_detached := false
  activeBranch := "master"
  references := ["master", "upstream/master"]
  remotes := ["upstream"]
  is_dirty := false
  statusSB := "## master...upstream/master"
  reachable := fun _ => []

/-- A repository on branch `master` where the remote branch `origin/develop`
exists but `origin/master` does not; the local branch `develop` exists. -/
def repoDevRefs : GitRepo where
  head_is_detached := false
  activeBranch := "master"
  references := ["master", "develop", "origin/develop"]
  remotes := ["origin"]
  is_dirty := false
  statusSB := "## master"
  reachable := fun _ => []

/- Theorems settling the claims. -/

/-- C1: `_pull_repo` evaluates its skip rules in the strict source order
dirty, detached HEAD, not tracking, no remote branch; it returns `DIRTY`
whenever `is_dirty` is true irrespective of every other classification
fact; and `repo.git.pull()` is not executed when any rule matches. -/
theorem pull_skip_rules_ordered (repo : GitRepo) :
    (repo.is_dirty = true → _pull_repo repo = .ok ⟨.DIRTY, false⟩)
    ∧ (repo.is_dirty = false → repo.head_is_detached = true →
        _pull_repo repo = .ok ⟨.DETACHED_HEAD, false⟩)
    ∧ (repo.is_dirty = false → repo.head_is_detached = false →
        _is_tracking_remote_branch repo = .ok false →
        _pull_repo repo = .ok ⟨.NOT_TRACKING, false⟩)
    ∧ (∀ remote_name : String, repo.is_dirty = false →
        repo.head_is_detached = false →
        _is_tracking_remote_branch repo = .ok true →
        _get_remote_name repo = .ok remote_name →
        _has_remote_branch remote_name repo = false →
        _pull_repo repo = .ok ⟨.NO_REMOTE_BRANCH, false⟩)
    ∧ (∀ r : PullRun, _pull_repo repo = .ok r →
        r.reason ≠ .NONE → r.pullRan = false) := by
  refine ⟨?_, ?_, ?_, ?_, ?_⟩
  · intro hd
    simp [_pull_repo, hd]
  · intro hd hdet
    simp [_pull_repo, _is_repo_head_detached, hd, hdet]
  · intro hd hdet htr
    simp [_pull_repo, _is_repo_head_detached, hd, hdet, htr,
      Except.instMonad, Except.bind]
  · intro remote_name hd hdet htr hrn hbr
    simp [_pull_repo, _is_repo_head_detached, hd, hdet, htr, hrn, hbr,
      Except.instMonad, Except.bind]
  · intro r hr hne
    by_cases hd : repo.is_dirty
    · simp [_pull_repo, hd] at hr
      simp [← hr]
    · by_cases hdet : repo.head_is_detached
      · simp [_pull_repo, _is_repo_head_detached, hd, hdet] at hr
        simp [← hr]
      · rcases htr : _is_tracking_remote_branch repo with e | tracking
        · simp [_pull_repo, _is_repo_head_detached, hd, hdet, htr,
            Except.instMonad, Except.bind] at hr
        · cases tracking with
          | false =>
            simp [_pull_repo, _is_repo_head_detached, hd, hdet, htr,
              Except.instMonad, Except.bind] at hr
            simp [← hr]
          | true =>
            rcases hrn : _get_remote_name repo with e | remote_name
            · simp [_pull_repo, _is_repo_head_detached, hd, hdet, htr, hrn,
                Except.instMonad, Except.bind] at hr
            · by_cases hbr : _has_remote_branch remote_name repo
              · simp [_pull_repo, _is_repo_head_detached, hd, hdet, htr, hrn,
                  hbr, Except.instMonad, Except.bind] at hr
                rw [← hr] at hne
                simp at hne
              · simp [_pull_repo, _is_repo_head_detached, hd, hdet, htr, hrn,
                  hbr, Except.instMonad, Except.bind] at hr
                simp [← hr]

/-- C1 witness: on the concrete dirty repository `repoDirty` the theorem
yields the `DIRTY` skip with no pull executed. -/
theorem pull_skip_rules_ordered_witness :
    _pull_repo repoDirty = .ok ⟨.DIRTY, false⟩ :=
  (pull_skip_rules_ordered repoDirty).1 rfl

/-- C7: on a detached-HEAD repository, `_has_remote_branch` is false for
every remote name and `_is_tracking_remote_branch` returns false, whatever
the configured remotes are. -/
theorem detached_forces_untracked (repo : GitRepo)
    (hdet : repo.head_is_detached = true) :
    (∀ remote_name : String, _has_remote_branch remote_name repo = false)
    ∧ _is_tracking_remote_branch repo = .ok false := by
  constructor
  · intro remote_name
    simp [_has_remote_branch, _is_repo_head_detached, hdet]
  · simp [_is_tracking_remote_branch, _is_repo_head_detached, hdet]

/-- C7 witness: the detached repository `repoDetached` has two configured
remotes, and both classification facts are forced false on it. -/
theorem detached_forces_untracked_witness :
    repoDetached.remotes.length = 2
    ∧ _has_remote_branch "origin" repoDetached = false
    ∧ _is_tracking_remote_branch repoDetached = .ok false :=
  ⟨rfl, (detached_forces_untracked repoDetached rfl).1 "origin",
    (detached_forces_untracked repoDetached rfl).2⟩

/-- C8: the ahead count computed from `A` to `B` equals the behind count
computed from `B` to `A`: both are the length of the commit range `B..A`. -/
theorem ahead_behind_symmetric (repo : GitRepo) (A B : String) :
    forward_commit_count repo A B = behind_commit_count repo B A := rfl

/-- C9: when both commit counts are zero the check report is exactly the
single up-to-date line and no ahead/behind phrase; otherwise no up-to-date
line appears and each ahead/behind phrase appears iff its count is
positive. -/
theorem check_report_shape (repo : GitRepo) (target_branch remote_branch : String) :
    (behind_commit_count repo target_branch remote_branch = 0 ∧
        forward_commit_count repo target_branch remote_branch = 0 →
      checkStateReport repo target_branch remote_branch
        = [.originUpToDate remote_branch])
    ∧ (¬(behind_commit_count repo target_branch remote_branch = 0 ∧
          forward_commit_count repo target_branch remote_branch = 0) →
      (∀ s, CheckReportLine.originUpToDate s ∉
          checkStateReport repo target_branch remote_branch)
      ∧ (CheckReportLine.originAhead remote_branch
            (behind_commit_count repo target_branch remote_branch) ∈
          checkStateReport repo target_branch remote_branch
          ↔ 0 < behind_commit_count repo target_branch remote_branch)
      ∧ (CheckReportLine.localAhead target_branch
            (forward_commit_count repo target_branch remote_branch) ∈
          checkStateReport repo target_branch remote_branch
          ↔ 0 < forward_commit_count repo target_branch remote_branch)) := by
  have hrep : checkStateReport repo target_branch remote_branch
      = (if behind_commit_count repo target_branch remote_branch = 0 ∧
            forward_commit_count repo target_branch remote_branch = 0 then
          [.originUpToDate remote_branch]
        else
          (if behind_commit_count repo target_branch remote_branch > 0 then
            [.originAhead remote_branch
              (behind_commit_count repo target_branch remote_branch)]
          else [])
          ++ (if forward_commit_count repo target_branch remote_branch > 0 then
            [.localAhead target_branch
              (forward_commit_count repo target_branch remote_branch)]
          else [])) := rfl
  rw [hrep]
  generalize behind_commit_count repo target_branch remote_branch = b
  generalize forward_commit_count repo target_branch remote_branch = f
  refine ⟨fun h => by rw [if_pos h], fun h => ?_⟩
  rw [if_neg h]
  rcases Nat.eq_zero_or_pos b with hb0 | hbp
  · rcases Nat.eq_zero_or_pos f with hf0 | hfp
    · exact absurd ⟨hb0, hf0⟩ h
    · subst hb0
      simp [hfp]
  · rcases Nat.eq_zero_or_pos f with hf0 | hfp
    · subst hf0
      simp [hbp, Nat.pos_iff_ne_zero.mp hbp]
    · simp [hbp, hfp, Nat.pos_iff_ne_zero.mp hbp, Nat.pos_iff_ne_zero.mp hfp]

/-- C9 witness: at `repoClean` with both counts zero, the theorem yields the
single up-to-date line. -/
theorem check_report_shape_witness :
    checkStateReport repoClean "master" "origin/master"
      = [.originUpToDate "origin/master"] :=
  (check_report_shape repoClean "master" "origin/master").1 ⟨rfl, rfl⟩

/-- C2 (code bug): `_has_remote_branch` always tests the reference
`{remote_name}/{repo.active_branch}` and takes no branch parameter, so a
`classify`/check call with a target-branch override does not test
`{remoteName}/{targetBranch}`.  On `repoDevRefs` (active branch `master`,
references `master`, `develop`, `origin/develop`) with override `develop`:
`origin/develop` is among the known references, yet `_has_remote_branch`
answers false and the check run skips with `NO_REMOTE_BRANCH` — while its
own skip message names the reference `origin/develop` that does exist. -/
theorem remote_branch_check_ignores_override :
    repoDevRefs.references.contains ("origin" ++ "/" ++ "develop") = true
    ∧ _has_remote_branch "origin" repoDevRefs = false
    ∧ checkTrace repoDevRefs (some "develop")
        = [.evalDetached, .resolveRemoteName, .evalHasBranch,
            .evalRemoteBranchExists, .skipWarn .NO_REMOTE_BRANCH] :=
  ⟨rfl, rfl, rfl⟩

/-- C4 (code bug): `_get_remote_name` on a repository whose single
configured remote is named `upstream` does not return `upstream` — GitPython
`repo.remote()` looks up the remote named `origin` and raises `ValueError`,
so name resolution fails instead of falling back to the default (the
`DEFAULT_GIT_REMOTE_NAME` branch is unreachable). -/
theorem remote_name_resolution_raises_without_origin :
    repoUpstreamOnly.remotes = ["upstream"]
    ∧ _get_remote_name repoUpstreamOnly
        = .error ⟨"Remote named origin did not exist", "ValueError"⟩ :=
  ⟨rfl, rfl⟩

/-- C10: whenever `_fetch_repo` reaches the fetch (is not skipped and does
not raise), the remote it passes to `repo.git.fetch` is the string literal
`origin`, independent of the `remote_name` shown in the message. -/
theorem fetch_fetches_literal_origin (repo : GitRepo) (branch : Option String)
    (r tb pn : String)
    (h : _fetch_repo repo branch = .ok (.fetched r tb pn)) :
    r = "origin" := by
  by_cases hdet : repo.head_is_detached
  · simp [_fetch_repo, _is_repo_head_detached, hdet] at h
  · rcases hrn : _get_remote_name repo with e | remote_name
    · simp [_fetch_repo, _is_repo_head_detached, hdet, hrn,
        Except.instMonad, Except.bind] at h
    · by_cases hbr : _has_remote_branch remote_name repo
      · simp [_fetch_repo, _is_repo_head_detached, hdet, hrn, hbr,
          Except.instMonad, Except.bind] at h
        exact h.1.symm
      · simp [_fetch_repo, _is_repo_head_detached, hdet, hrn, hbr,
          Except.instMonad, Except.bind] at h

/-- C10 witness: `repoClean` is a concrete repository where the fetch
proceeds, and the remote fetched from is `origin`. -/
theorem fetch_fetches_literal_origin_witness :
    _fetch_repo repoClean none = .ok (.fetched "origin" "master" "origin")
    ∧ "origin" = "origin" :=
  ⟨rfl, fetch_fetches_literal_origin repoClean none "origin" "master" "origin" rfl⟩

/-- C3 counterexample: in the check run on `repoClean`, both the
`remoteBranchExists` test and the remote refresh occur, and the test occurs
strictly BEFORE the refresh in the executed step order — so the refresh is
not performed before the `remoteBranchExists` classification in this run. -/
theorem check_refresh_not_before_existence_cx :
    CheckStep.updateRemotes ∈ checkTrace repoClean none
    ∧ (checkTrace repoClean none).indexOf CheckStep.evalRemoteBranchExists
        < (checkTrace repoClean none).indexOf CheckStep.updateRemotes := by
  decide

/-- C3 (amended): in every check run that performs the remote refresh, the
refresh happens strictly after the `remoteBranchExists` test and strictly
before the ahead/behind commit walks. -/
theorem check_refresh_after_existence_before_counts (repo : GitRepo)
    (branch : Option String)
    (h : CheckStep.updateRemotes ∈ checkTrace repo branch) :
    CheckStep.evalRemoteBranchExists ∈ checkTrace repo branch
    ∧ (checkTrace repo branch).indexOf CheckStep.evalRemoteBranchExists
        < (checkTrace repo branch).indexOf CheckStep.updateRemotes
    ∧ (checkTrace repo branch).indexOf CheckStep.updateRemotes
        < (checkTrace repo branch).indexOf CheckStep.iterCommits := by
  by_cases hdet : repo.head_is_detached
  · simp [checkTrace, _is_repo_head_detached, hdet] at h
  · rcases hrn : _get_remote_name repo with e | remote_name
    · simp [checkTrace, _is_repo_head_detached, hdet, hrn] at h
    · by_cases hb : _has_branch repo (branch.getD repo.activeBranch)
      · by_cases hbr : _has_remote_branch remote_name repo
        · simp only [checkTrace, _is_repo_head_detached, hdet, hrn, hb, hbr]
          decide
        · simp [checkTrace, _is_repo_head_detached, hdet, hrn, hb, hbr] at h
      · simp [checkTrace, _is_repo_head_detached, hdet, hrn, hb] at h

/-- C3 witness: the theorem applied to the concrete run on `repoClean`. -/
theorem check_refresh_after_existence_before_counts_witness :
    CheckStep.evalRemoteBranchExists ∈ checkTrace repoClean none
    ∧ (checkTrace repoClean none).indexOf CheckStep.evalRemoteBranchExists
        < (checkTrace repoClean none).indexOf CheckStep.updateRemotes
    ∧ (checkTrace repoClean none).indexOf CheckStep.updateRemotes
        < (checkTrace repoClean none).indexOf CheckStep.iterCommits :=
  check_refresh_after_existence_before_counts repoClean none (by decide)

/-- The `_get_git_repo_paths` loop for an arbitrary accumulator: it appends
exactly the joined paths of the non-hidden, marker-bearing
sub-directories. -/
theorem get_git_repo_paths_foldl (fs : FileSystem) (names : List String)
    (acc : List String) :
    names.foldl
      (fun repo_paths sub_dir =>
        if pyStartswith sub_dir "." then repo_paths
        else if fs.hasGitMarker (path_join fs.rootPath sub_dir) then
          repo_paths ++ [path_join fs.rootPath sub_dir]
        else repo_paths)
      acc
    = acc ++ (names.filter (fun n =>
          !(pyStartswith n ".") && fs.hasGitMarker (path_join fs.rootPath n))).map
        (fun n => path_join fs.rootPath n) := by
  induction names generalizing acc with
  | nil => simp
  | cons n rest ih =>
    by_cases h1 : pyStartswith n "."
    · simp [List.foldl_cons, List.filter_cons, h1, ih]
    · by_cases h2 : fs.hasGitMarker (path_join fs.rootPath n)
      · simp [List.foldl_cons, List.filter_cons, h1, h2, ih]
      · simp [List.foldl_cons, List.filter_cons, h1, h2, ih]

/-- C5: discovery returns exactly the immediate non-hidden sub-directories
carrying the git marker (as joined paths, in listing order); the batch tasks
fall back to running on the root exactly when no sub-directory qualifies and
the root carries the marker, and report that no repositories were found
exactly when no sub-directory qualifies and the root lacks the marker. -/
theorem discover_exact_and_fallback (fs : FileSystem) :
    _get_git_repo_paths fs
      = (fs.subdirNames.filter (fun n =>
            !(pyStartswith n ".") && fs.hasGitMarker (path_join fs.rootPath n))).map
          (fun n => path_join fs.rootPath n)
    ∧ (discoverDispatch fs = .runOnRoot fs.rootPath
        ↔ _get_git_repo_paths fs = [] ∧ fs.hasGitMarker fs.rootPath = true)
    ∧ (discoverDispatch fs = .noReposFound fs.rootPath
        ↔ _get_git_repo_paths fs = [] ∧ fs.hasGitMarker fs.rootPath = false)
    ∧ (∀ ps, discoverDispatch fs = .runOnRepos ps →
        ps = _get_git_repo_paths fs ∧ ps ≠ []) := by
  have h1 : _get_git_repo_paths fs
      = (fs.subdirNames.filter (fun n =>
            !(pyStartswith n ".") && fs.hasGitMarker (path_join fs.rootPath n))).map
          (fun n => path_join fs.rootPath n) := by
    rw [_get_git_repo_paths, get_git_repo_paths_foldl]
    simp
  refine ⟨h1, ?_, ?_, ?_⟩
  · by_cases he : _get_git_repo_paths fs = []
    · by_cases hm : fs.hasGitMarker fs.rootPath
      · simp [discoverDispatch, he, hm]
      · simp [discoverDispatch, he, hm]
    · simp [discoverDispatch, List.isEmpty_iff, he]
  · by_cases he : _get_git_repo_paths fs = []
    · by_cases hm : fs.hasGitMarker fs.rootPath
      · simp [discoverDispatch, he, hm]
      · simp [discoverDispatch, he, hm]
    · simp [discoverDispatch, List.isEmpty_iff, he]
  · intro ps hps
    by_cases he : _get_git_repo_paths fs = []
    · by_cases hm : fs.hasGitMarker fs.rootPath
      · simp [discoverDispatch, he, hm] at hps
      · simp [discoverDispatch, he, hm] at hps
    · simp [discoverDispatch, List.isEmpty_iff, he] at hps
      exact ⟨hps.symm, fun hc => he (hps.trans hc)⟩

/-- A root directory with one hidden sub-directory and the git marker on the
root itself. -/
def fsRootRepo : FileSystem where
  rootPath := "/root"
  subdirNames := [".hidden"]
  hasGitMarker := fun p => p == "/root"

/-- C5 witness: on `fsRootRepo` no sub-directory qualifies and the root has
the marker, so the dispatch falls back to the root. -/
theorem discover_exact_and_fallback_witness :
    discoverDispatch fsRootRepo = .runOnRoot fsRootRepo.rootPath :=
  ((discover_exact_and_fallback fsRootRepo).2.1).mpr ⟨by decide, by decide⟩

/-- `Repo(repo_dir)` construction that always succeeds, yielding
`repoClean`. -/
def constructAlways : String → Except PyException GitRepo :=
  fun _ => .ok repoClean

/-- A per-repository action that raises `boom` for the directory `alpha` and
succeeds elsewhere. -/
def batchActBoom : String → GitRepo → Except PyException Unit :=
  fun repo_dir _ =>
    if repo_dir = "alpha" then .error ⟨"boom", "traceback-text"⟩ else .ok ()

/-- C6 counterexample: in the concrete batch over `alpha`, `beta` where the
action for `alpha` raises `boom`, the only error line printed is
`[error] Message: boom` — it does NOT contain the failing repository
identifier `alpha` — while processing does continue with `beta`.  So the
error line does not identify the failing repository. -/
theorem batch_error_line_lacks_repo_identifier_cx :
    _run_action_for_each_repo false constructAlways batchActBoom ["alpha", "beta"]
      = .ok ([_print_error_line ("Message: " ++ "boom")], ["alpha", "beta"])
    ∧ substrOf "alpha" (_print_error_line ("Message: " ++ "boom")) = false :=
  ⟨rfl, rfl⟩

/-- C6 (amended): when every repository handle constructs, any exception
raised by the per-repository action is caught at the per-repository
boundary, logged as an error line carrying the exception message (message
only by default, the full traceback added under the debug flag), and the
action is invoked for every directory of the list. -/
theorem batch_logs_message_and_continues (debug_mode : Bool)
    (constructRepo : String → Except PyException GitRepo)
    (func : String → GitRepo → Except PyException Unit)
    (dirs : List String)
    (h : ∀ d ∈ dirs, ∃ repo, constructRepo d = .ok repo) :
    _run_action_for_each_repo debug_mode constructRepo func dirs
      = .ok (dirs.flatMap (repoActionLog debug_mode constructRepo func), dirs)
    ∧ ∀ e : PyException, _try_run debug_mode (.error e)
        = _print_error_line ("Message: " ++ e.message)
          :: (if debug_mode then [_print_error_line e.traceback] else []) := by
  refine ⟨?_, fun e => rfl⟩
  induction dirs with
  | nil => rfl
  | cons d rest ih =>
    obtain ⟨repo, hrepo⟩ := h d (List.mem_cons_self d rest)
    have hrest := ih (fun x hx => h x (List.mem_cons_of_mem d hx))
    simp [_run_action_for_each_repo, hrepo, Except.instMonad, Except.bind,
      hrest, repoActionLog]

/-- C6 witness: the amended theorem applied to the concrete batch of the
counterexample. -/
theorem batch_logs_message_and_continues_witness :
    _run_action_for_each_repo false constructAlways batchActBoom ["alpha", "beta"]
      = .ok ((["alpha", "beta"]).flatMap
          (repoActionLog false constructAlways batchActBoom), ["alpha", "beta"]) :=
  (batch_logs_message_and_continues false constructAlways batchActBoom
    ["alpha", "beta"] (fun _ _ => ⟨repoClean, rfl⟩)).1

end Fabfile
